import Mathlib

/-!
Verification of the RESP serialization core of redis-cpp
(src/include/redis-cpp/resp/serialization.h).

The byte stream written to the `std::ostream` sink is modelled as a
`List Char`, each `Char` standing for one byte.  A `std::string_view`
payload is a `List Char`; a view whose `data()` is the null pointer
(e.g. the default-constructed `std::string_view{}`) is `none`, a view
with a non-null pointer to bytes `s` is `some s`.  The decimal text that
`operator<<` produces for an integer is modelled with Lean's decimal
`toString`.
-/

namespace rediscpp

namespace resp

namespace serialization

namespace detail

namespace marker

/-- Modelled from the spec: the one-byte type markers and the two bytes of
the line terminator live in `detail/marker.h`, which is not under `src/`;
their values are taken from the spec's wire-format table
(`+` for a simple string, `-` for an error, `:` for an integer, `$` for
a bulk string, `*` for an array, terminator carriage return then line
feed). -/
def simple_string : Char := '+'

/-- Modelled from the spec: marker of an error message. -/
def error_message : Char := '-'

/-- Modelled from the spec: marker of an integer. -/
def integer : Char := ':'

/-- Modelled from the spec: marker of a bulk string. -/
def bulk_string : Char := '$'

/-- Modelled from the spec: marker of an array. -/
def array : Char := '*'

/-- Modelled from the spec: carriage return, first terminator byte. -/
def cr : Char := '\r'

/-- Modelled from the spec: line feed, second terminator byte. -/
def lf : Char := '\n'

end marker

end detail

/-- The two-byte line terminator `cr lf` emitted after every unit. -/
def crlf : List Char := [detail.marker.cr, detail.marker.lf]

/-- Decimal text of a `std::size_t` value streamed with `operator<<`. -/
def natDecimal (n : Nat) : List Char := (toString n).toList

/-- Decimal text of a signed integer value streamed with `operator<<`. -/
def intDecimal (v : Int) : List Char := (toString v).toList

/-- Model of `static_cast<std::int64_t>(value_)` in `integer::put`: the
value of the integral source object, reduced modulo `2 ^ 64` into the
signed 64-bit range `[-2 ^ 63, 2 ^ 63)`. -/
def to_int64 (v : Int) : Int := (v + 2 ^ 63) % 2 ^ 64 - 2 ^ 63

/-- The typed values of `rediscpp::resp::serialization`, one constructor
per class of serialization.h.  `integer` holds the mathematical value of
the integral object `value_` of any width or signedness.  `bulk_string`
holds `none` when the view's `data()` is null.  `binary_data` holds the
bytes at the pointer (or `none` for the null pointer) and the `length_`
field.  `array_tuple` is the primary `array<T...>` template holding the
tuple alternative; `array_list` holds the `forward_list` alternative;
`array_null` is the `array<null>` specialization. -/
inductive value : Type
  | simple_string (s : List Char)
  | error_message (s : List Char)
  | integer (v : Int)
  | bulk_string (v : Option (List Char))
  | binary_data (data : Option (List Char)) (length : Nat)
  | null
  | array_tuple (items : List value)
  | array_list (items : List (List Char))
  | array_null

/-- Method `simple_string::put`: marker `+`, the text verbatim, `cr`,
`lf`. -/
def simple_string_put (s : List Char) : List Char :=
  detail.marker.simple_string :: (s ++ crlf)

/-- Method `error_message::put`: marker `-`, the text verbatim, `cr`,
`lf`. -/
def error_message_put (s : List Char) : List Char :=
  detail.marker.error_message :: (s ++ crlf)

/-- Method `integer::put`: marker `:`, the value of
`static_cast<std::int64_t>(value_)` in decimal, `cr`, `lf`. -/
def integer_put (v : Int) : List Char :=
  detail.marker.integer :: (intDecimal (to_int64 v) ++ crlf)

/-- Method `bulk_string::put`: when `value_.data()` is non-null, marker `$`,
`value_.length()` in decimal, terminator, the bytes, terminator;
otherwise marker `$`, `-1`, terminator. -/
def bulk_string_put : Option (List Char) → List Char
  | some s =>
      detail.marker.bulk_string ::
        (natDecimal s.length ++ crlf ++ s ++ crlf)
  | none =>
      detail.marker.bulk_string :: (intDecimal (-1) ++ crlf)

/-- Method `binary_data::put`: when `data_` is non-null, marker `$`, `length_` in
decimal, terminator, then `stream.write(data_, length_)` writes the bytes
at the pointer, then terminator; when `data_` is null, marker `$`, `-1`,
terminator, with `length_` never read. -/
def binary_data_put : Option (List Char) → Nat → List Char
  | some s, length =>
      detail.marker.bulk_string ::
        (natDecimal length ++ crlf ++ s ++ crlf)
  | none, _ =>
      detail.marker.bulk_string :: (intDecimal (-1) ++ crlf)

/-- The counting loop of the `list_type` branch of `array::put`:
`std::size_t count = 0; for (auto const &i : values) ++count;`. -/
def count_list (values : List (List Char)) : Nat :=
  values.foldl (fun count _ => count + 1) 0

/-- The emission loop of the `list_type` branch of `array::put`: for each
item `i` of the list in traversal order, `serialization::put(stream,
simple_string{i})`. -/
def put_list : List (List Char) → List Char
  | [] => []
  | i :: rest => simple_string_put i ++ put_list rest

mutual

/-- Function `serialization::put(stream, value)`: generic dispatch to the
value's own `put`.
`null::put` delegates to `bulk_string{}` (default constructor, null
`data()`).  The tuple branch of `array::put` emits marker `*`,
`std::tuple_size_v` in decimal, terminator, then each element's `put` in
order via `std::apply`.  The list branch counts by traversal, emits
marker `*`, the count, terminator, then re-encodes each item as a
`simple_string`.  `array<null>::put` emits marker `*`, `-1`,
terminator. -/
def put : value → List Char
  | .simple_string s => simple_string_put s
  | .error_message s => error_message_put s
  | .integer v => integer_put v
  | .bulk_string v => bulk_string_put v
  | .binary_data data length => binary_data_put data length
  | .null => bulk_string_put none
  | .array_tuple items =>
      detail.marker.array ::
        (natDecimal items.length ++ crlf ++ put_items items)
  | .array_list items =>
      detail.marker.array ::
        (natDecimal (count_list items) ++ crlf ++ put_list items)
  | .array_null =>
      detail.marker.array :: (intDecimal (-1) ++ crlf)

/-- The fold `(print(args), ...)` over the tuple elements: each element's
own encoding, concatenated in argument order with nothing in between. -/
def put_items : List value → List Char
  | [] => []
  | v :: rest => put v ++ put_items rest

end

/-- Overload resolution for constructing an `array` from an argument pack:
class template argument deduction picks the `array<null>` specialization exactly when
the argument pack is a single `null`; every other pack instantiates the
primary template holding the tuple alternative. -/
def array_mk (items : List value) : value :=
  match items with
  | [.null] => .array_null
  | _ => .array_tuple items

/-- The `array(list_type const &)` constructor: holds the
`forward_list` alternative of the variant. -/
def array_of_list (items : List (List Char)) : value :=
  .array_list items

/-- Whether a byte sequence contains the two-byte terminator `cr lf`. -/
def contains_crlf : List Char → Bool
  | '\r' :: '\n' :: _ => true
  | _ :: rest => contains_crlf rest
  | [] => false

/-- Decoder for the simple-string wire form `+<text>` then terminator,
written from the spec's wire-format table: strip the leading `+` byte and
the trailing two-byte terminator. -/
def simple_string_decode (w : List Char) : List Char :=
  (w.drop 1).dropLast.dropLast

/-- The tuple fold of `array::put` writes exactly the concatenation of
the elements' own encodings, in order, with nothing in between. -/
theorem put_items_eq_flatten (l : List value) :
    put_items l = (l.map put).flatten := by
  induction l with
  | nil => rfl
  | cons v rest ih => simp [put_items, ih]

/-- The counting loop started at `n` returns `n` plus the list length. -/
theorem count_list_aux (l : List (List Char)) (n : Nat) :
    l.foldl (fun count _ => count + 1) n = n + l.length := by
  induction l generalizing n with
  | nil => simp
  | cons i rest ih => simp [List.foldl, ih]; omega

/-- The counting traversal of `array::put` computes the list's length. -/
theorem count_list_eq_length (l : List (List Char)) :
    count_list l = l.length := by
  unfold count_list; rw [count_list_aux]; omega

/-- The emission loop of the `list_type` branch writes the concatenation
of the items' `simple_string` encodings, in traversal order. -/
theorem put_list_eq_flatten (l : List (List Char)) :
    put_list l = (l.map (fun s => put (value.simple_string s))).flatten := by
  induction l with
  | nil => rfl
  | cons i rest ih => simp [put_list, ih, put]

/-- Dropping the last element twice from a list extended by two elements
recovers the list. -/
theorem dropLast_two_append (s : List Char) (a b : Char) :
    ((s ++ [a, b]).dropLast).dropLast = s := by
  have h : s ++ [a, b] = ((s ++ [a]) ++ [b]) := by simp
  rw [h, List.dropLast_concat, List.dropLast_concat]

/-- C1, as stated, fails on the single-item list holding one `null`:
there the `array<null>` specialization is selected and the output is the
null-array form `*-1` with terminator, not `*`, arity `1`, terminator,
then the item's own encoding. -/
theorem C1_counterexample :
    put (array_mk [value.null]) ≠
      detail.marker.array ::
        (natDecimal [value.null].length ++ crlf ++
          ([value.null].map put).flatten) := by
  decide

/-- C1 (amended): for every fixed heterogeneous array built from items of
any mix of the scalar value types or nested arrays, other than the
single-item list holding exactly one `null` (which selects the
`array<null>` specialization), encoding emits `*`, the arity as decimal,
the terminator, then the concatenation of each item's own encoding in
argument order with nothing between items. -/
theorem C1_fixed_array_encoding (items : List value)
    (h : items ≠ [value.null]) :
    put (array_mk items) =
      detail.marker.array ::
        (natDecimal items.length ++ crlf ++ (items.map put).flatten) := by
  unfold array_mk
  split
  · simp_all
  · simp [put, put_items_eq_flatten]

/-- Witness for C1 (amended) at the two-item array of an integer and a
bulk string. -/
theorem C1_fixed_array_encoding_witness :
    ([value.integer 1000, value.bulk_string (some ['f', 'o', 'o'])] ≠
      [value.null]) ∧
    put (array_mk
        [value.integer 1000, value.bulk_string (some ['f', 'o', 'o'])]) =
      detail.marker.array ::
        (natDecimal 2 ++ crlf ++
          ([value.integer 1000,
            value.bulk_string (some ['f', 'o', 'o'])].map put).flatten) :=
  ⟨by simp,
    C1_fixed_array_encoding
      [value.integer 1000, value.bulk_string (some ['f', 'o', 'o'])]
      (by simp)⟩

/-- C2: for every byte span with a present payload, including the empty
span and spans with embedded null bytes, encoding as a bulk string or as
binary data yields `$`, the payload's byte count as decimal, the
terminator, the payload bytes verbatim, and the terminator. -/
theorem C2_present_payload_encoding (s : List Char) :
    put (value.bulk_string (some s)) =
      detail.marker.bulk_string ::
        (natDecimal s.length ++ crlf ++ s ++ crlf) ∧
    put (value.binary_data (some s) s.length) =
      detail.marker.bulk_string ::
        (natDecimal s.length ++ crlf ++ s ++ crlf) := by
  constructor <;> simp [put, bulk_string_put, binary_data_put]

/-- C3: encoding a bulk string, binary data, or the `null` value with an
absent payload always yields exactly the five bytes of `$-1` with the
terminator and no body bytes, and the absent forms never produce the
zero-length encoding `$0` with two terminators, which arises from an
explicitly supplied empty but present view. -/
theorem C3_absent_payload_null_form :
    (∀ length : Nat,
      put (value.binary_data none length) = ['$', '-', '1', '\r', '\n']) ∧
    put (value.bulk_string none) = ['$', '-', '1', '\r', '\n'] ∧
    put value.null = ['$', '-', '1', '\r', '\n'] ∧
    put (value.bulk_string (some [])) =
      ['$', '0', '\r', '\n', '\r', '\n'] ∧
    (∀ length : Nat,
      put (value.binary_data none length) ≠
        ['$', '0', '\r', '\n', '\r', '\n']) ∧
    put (value.bulk_string none) ≠ ['$', '0', '\r', '\n', '\r', '\n'] ∧
    put value.null ≠ ['$', '0', '\r', '\n', '\r', '\n'] :=
  ⟨fun _ => rfl, rfl, rfl, rfl,
    fun length => by
      rw [show put (value.binary_data none length) =
        ['$', '-', '1', '\r', '\n'] from rfl]
      decide,
    by decide, by decide⟩

/-- C4: for every homogeneous list array built from a sequence of text
items, encoding emits `*`, the count computed by the counting traversal
as decimal, the terminator, then the `simple_string` encoding of each
item in traversal order; the counting traversal computes the sequence's
length, for the empty sequence the output is exactly `*0` with the
terminator, and the empty emission pass writes nothing. -/
theorem C4_homogeneous_list_encoding (l : List (List Char)) :
    put (array_of_list l) =
      detail.marker.array ::
        (natDecimal l.length ++ crlf ++
          (l.map (fun s => put (value.simple_string s))).flatten) ∧
    count_list l = l.length ∧
    put (array_of_list []) = ['*', '0', '\r', '\n'] ∧
    put_list [] = [] := by
  refine ⟨?_, count_list_eq_length l, by decide, rfl⟩
  simp [array_of_list, put, count_list_eq_length, put_list_eq_flatten]

/-- C5: for every integral input value, encoding as an integer yields
`:`, the decimal representation of the input reinterpreted as a signed
64-bit value, and the terminator; the reinterpreted value lies in the
signed 64-bit range and is congruent to the input modulo `2 ^ 64`. -/
theorem C5_integer_encoding (v : Int) :
    put (value.integer v) =
      detail.marker.integer :: (intDecimal (to_int64 v) ++ crlf) ∧
    -(2 ^ 63) ≤ to_int64 v ∧ to_int64 v < 2 ^ 63 ∧
    (2 ^ 64 : Int) ∣ v - to_int64 v := by
  refine ⟨rfl, ?_, ?_, ⟨(v + 2 ^ 63) / 2 ^ 64, ?_⟩⟩ <;>
    unfold to_int64 <;> omega

/-- C6: encoding the null-array sentinel yields exactly the five bytes
of `*-1` with the terminator, which is distinct from the encoding of the
empty-but-present list array `*0` with the terminator. -/
theorem C6_null_array_encoding :
    put value.array_null = ['*', '-', '1', '\r', '\n'] ∧
    put (array_of_list []) = ['*', '0', '\r', '\n'] ∧
    put value.array_null ≠ put (array_of_list []) := by
  refine ⟨by decide, by decide, by decide⟩

/-- C7: for every text value, encoding as a simple string yields `+`,
the text verbatim, and the terminator, and encoding as an error message
yields `-`, the text verbatim, and the terminator, with no escaping or
transformation of the text. -/
theorem C7_simple_and_error_encoding (s : List Char) :
    put (value.simple_string s) = '+' :: (s ++ crlf) ∧
    put (value.error_message s) = '-' :: (s ++ crlf) :=
  ⟨rfl, rfl⟩

/-- C8: for every text value containing no terminator sequence, encoding
it as a simple string and decoding the resulting bytes per the wire form
(strip the leading `+` and the trailing two-byte terminator) yields back
exactly the original text. -/
theorem C8_simple_string_round_trip (s : List Char)
    (_h : contains_crlf s = false) :
    simple_string_decode (put (value.simple_string s)) = s := by
  show ((simple_string_put s).drop 1).dropLast.dropLast = s
  have hp : simple_string_put s = '+' :: (s ++ ['\r', '\n']) := rfl
  rw [hp, List.drop_succ_cons, List.drop_zero, dropLast_two_append]

/-- Witness for C8 at the text `OK`. -/
theorem C8_simple_string_round_trip_witness :
    contains_crlf ['O', 'K'] = false ∧
    simple_string_decode (put (value.simple_string ['O', 'K'])) =
      ['O', 'K'] :=
  ⟨by decide, C8_simple_string_round_trip ['O', 'K'] (by decide)⟩

/-- C9: for every length value, binary data constructed with a null data
pointer encodes as exactly `$-1` with the terminator; the supplied
length has no effect on the output and no body bytes are written, while
a present (even empty) payload never produces the null form. -/
theorem C9_null_pointer_ignores_length (length : Nat) :
    put (value.binary_data none length) = ['$', '-', '1', '\r', '\n'] ∧
    put (value.binary_data none length) =
      put (value.binary_data none 0) ∧
    put (value.binary_data (some []) 0) ≠ ['$', '-', '1', '\r', '\n'] :=
  ⟨rfl, rfl, by decide⟩

/-- C10: constructing a fixed array from exactly one `null` item selects
the dedicated `array<null>` specialization, so it encodes as the null
array `*-1` with the terminator, not as a one-element array containing a
null bulk string. -/
theorem C10_single_null_selects_null_array :
    array_mk [value.null] = value.array_null ∧
    put (array_mk [value.null]) = ['*', '-', '1', '\r', '\n'] ∧
    put (array_mk [value.null]) ≠
      ['*', '1', '\r', '\n', '$', '-', '1', '\r', '\n'] :=
  ⟨rfl, by decide, by decide⟩

end serialization

end resp

end rediscpp
